import Mathlib

/-!
Verification development for the QuorumBridge relayer pipeline
(`src/backend`): a shallow embedding in Lean 4 of the consensus
validator, the chain poller's block-range management, the DynamoDB
state store operations, and the executor, together with proofs of
the specification's claims about them.

Conventions of the embedding:
* JavaScript strings are Lean `String`s; a "falsy" string is `""`.
* JavaScript numbers used as block numbers / epoch milliseconds are
  Lean `Int` (they may go negative in the source's arithmetic).
* A JavaScript value that may be `null`/`undefined` is an `Option`.
* A JavaScript function that may `throw` returns `Except String α`
  where the `String` is the thrown error's message.
* `Date.now()` and other ambient inputs are passed explicitly.
-/

namespace QuorumBridge

/-! ## Consensus validator (`src/backend/src/functions/validator/consensus.js`)

`ConsensusValidator` reads `REQUIRED_SIGNATURES` and `TOTAL_RELAYERS`
from the environment with defaults 2 and 3; we embed the defaults. -/

/-- `this.requiredSignatures = parseInt(process.env.REQUIRED_SIGNATURES) || 2`. -/
def REQUIRED_SIGNATURES : Nat := 2

/-- `this.totalRelayers = parseInt(process.env.TOTAL_RELAYERS) || 3`. -/
def TOTAL_RELAYERS : Nat := 3

/-- One element of the `signatures` array handed to the validator.
`timestamp` is the signing time in epoch milliseconds; `none` models a
timestamp field that is absent or falsy. -/
structure Sig where
  signature : String
  relayerId : String
  publicKey : String
  timestamp : Option Int
  deriving Repr, DecidableEq

/-- The filter predicate of `validateConsensus`:
`sig && sig.signature && sig.relayerId && sig.publicKey`
(the surrounding `sig &&` null-check is the `Option` in the input list). -/
def structValid (s : Sig) : Bool :=
  s.signature ≠ "" && s.relayerId ≠ "" && s.publicKey ≠ ""

/-- Result object of `validateConsensus`. -/
structure ConsensusResult where
  hasConsensus : Bool
  validSignatures : Nat
  requiredSignatures : Nat
  signatures : List Sig
  deriving Repr, DecidableEq

/-- `validateConsensus(signatures)`: filters to structurally valid
signatures and compares their count to the threshold.  The input is a
JS array whose entries may be null, hence `List (Option Sig)`.  (The
`!Array.isArray` throw cannot fire for a list input.) -/
def validateConsensus (signatures : List (Option Sig)) : ConsensusResult :=
  let validSignatures := (signatures.filterMap id).filter structValid
  { hasConsensus := validSignatures.length ≥ REQUIRED_SIGNATURES
    validSignatures := validSignatures.length
    requiredSignatures := REQUIRED_SIGNATURES
    signatures := validSignatures }

/-- The duplicate test of `validateUniqueRelayers(signatures)`:
`relayerIds.length !== new Set(relayerIds).size`. -/
def hasDuplicateRelayers (sigs : List Sig) : Bool :=
  (sigs.map (·.relayerId)).length ≠ (sigs.map (·.relayerId)).dedup.length

/-- One signature's age test inside `validateSignatureTiming`:
a signature with no (or falsy) timestamp is skipped (`continue`),
otherwise it is expired when `now - signatureTime > maxAge`. -/
def sigExpired (now : Int) (maxAgeMs : Int) (s : Sig) : Bool :=
  match s.timestamp with
  | none => false
  | some t => now - t > maxAgeMs

/-- `validateSignatureTiming(signatures, maxAgeMinutes = 30)` returns
`true`, or throws `ConsensusError('Signature expired')` on the first
expired signature; embedded as the Bool "no signature is expired". -/
def validateSignatureTiming (now : Int) (sigs : List Sig)
    (maxAgeMinutes : Int := 30) : Bool :=
  sigs.all (fun s => !sigExpired now (maxAgeMinutes * 60 * 1000) s)

/-- Result object of `validateFullConsensus`.  On the exception path the
source returns only `{isValid, reason: error.code, error: error.message}`,
so the spread fields are `Option`s that are `none` there. -/
structure FullConsensusResult where
  isValid : Bool
  reason : Option String
  errMsg : Option String
  validSignatures : Option Nat
  requiredSignatures : Option Nat
  deriving Repr, DecidableEq

/-- `validateFullConsensus(eventData, signatures)`:
1. `validateConsensus`; below threshold → `{isValid: false, reason:
   'INSUFFICIENT_SIGNATURES', ...consensusResult}` (no throw);
2. `validateUniqueRelayers` on the filtered signatures — a duplicate
   relayer id throws `ConsensusError` (code `CONSENSUS_ERROR`), caught
   and returned as `{isValid: false, reason: 'CONSENSUS_ERROR', ...}`;
3. `validateSignatureTiming` — an expired signature likewise;
4. otherwise `{isValid: true, ...consensusResult}`. -/
def validateFullConsensus (now : Int) (signatures : List (Option Sig)) :
    FullConsensusResult :=
  let c := validateConsensus signatures
  if !c.hasConsensus then
    { isValid := false, reason := some "INSUFFICIENT_SIGNATURES", errMsg := none
      validSignatures := some c.validSignatures
      requiredSignatures := some c.requiredSignatures }
  else if hasDuplicateRelayers c.signatures then
    { isValid := false, reason := some "CONSENSUS_ERROR"
      errMsg := some "Duplicate relayer signatures detected"
      validSignatures := none, requiredSignatures := none }
  else if !validateSignatureTiming now c.signatures then
    { isValid := false, reason := some "CONSENSUS_ERROR"
      errMsg := some "Signature expired"
      validSignatures := none, requiredSignatures := none }
  else
    { isValid := true, reason := none, errMsg := none
      validSignatures := some c.validSignatures
      requiredSignatures := some c.requiredSignatures }

/-- Result object of `determineAction`. -/
structure ActionResult where
  action : String
  reason : Option String
  targetChain : Option String
  method : Option String
  deriving Repr, DecidableEq

/-- JS `a || b` on a possibly-undefined string `a` (falsy = absent or ""). -/
def jsStrOr (a : Option String) (b : String) : String :=
  match a with
  | none => b
  | some s => if s = "" then b else s

/-- `determineAction(consensusResult, eventStatus)`: `WAIT` when the
consensus result is not valid, otherwise the string-keyed action map over
the event status, `ERROR` for an unmapped status. -/
def determineAction (c : FullConsensusResult) (eventStatus : String) :
    ActionResult :=
  if !c.isValid then
    { action := "WAIT", reason := some (jsStrOr c.reason "Consensus not reached")
      targetChain := none, method := none }
  else if eventStatus = "PENDING_MINT" then
    { action := "MINT", reason := none
      targetChain := some "ethereum", method := some "mintWrapped" }
  else if eventStatus = "PENDING_UNLOCK" then
    { action := "UNLOCK", reason := none
      targetChain := some "arbitrum", method := some "unlockTokens" }
  else
    { action := "ERROR", reason := some ("Unknown status: " ++ eventStatus)
      targetChain := none, method := none }

/-- Modelled from the spec's words, for comparison with the source (C2):
"the number of valid, unique, fresh signatures" — the count of distinct
relayer identities among the structurally valid, non-expired signatures. -/
def specQuorumCount (now : Int) (signatures : List (Option Sig)) : Nat :=
  ((((signatures.filterMap id).filter structValid).filter
      (fun s => !sigExpired now (30 * 60 * 1000) s)).map (·.relayerId)).dedup.length

/-! ## Chain poller block-range management
(`src/backend/src/functions/eventPoller/ethPoller.js`) -/

/-- The poller's advisory cursor `this.lastProcessedBlock`
(`null` initially, a block number after a successful range computation). -/
structure PollerState where
  lastProcessedBlock : Option Int
  deriving Repr, DecidableEq

/-- JS truthiness of a possibly-null number: falsy when `null` or `0`. -/
def jsTruthyInt : Option Int → Bool
  | none => false
  | some v => v ≠ 0

/-- `getPollingRange(maxBlocksPerPoll = 500)`:
`fromBlock = this.lastProcessedBlock ? this.lastProcessedBlock + 1
: currentBlock - 50`; `safeBlock = currentBlock - 3`;
`toBlock = Math.min(fromBlock + maxBlocksPerPoll, safeBlock)`;
returns `null` when `fromBlock > toBlock`, otherwise assigns
`this.lastProcessedBlock = toBlock` and returns the range.  The
`getCurrentBlock` RPC result is passed in as `currentBlock`; the updated
cursor state is returned alongside the result. -/
def getPollingRange (st : PollerState) (currentBlock : Int)
    (maxBlocksPerPoll : Int := 500) : Option (Int × Int) × PollerState :=
  let fromBlock : Int :=
    match st.lastProcessedBlock with
    | some v => if v ≠ 0 then v + 1 else currentBlock - 50
    | none => currentBlock - 50
  let safeBlock := currentBlock - 3
  let toBlock := min (fromBlock + maxBlocksPerPoll) safeBlock
  if fromBlock > toBlock then (none, st)
  else (some (fromBlock, toBlock), ⟨some toBlock⟩)

/-- Outcome of the `web3Service.queryEvents` RPC call made inside
`poll(fromBlock, toBlock)`. -/
inductive RpcOutcome where
  | ok
  | fail
  deriving Repr, DecidableEq

/-- One run of `pollAndSignEvents` for a chain, abstracted to what it does
to the cursor (`src/backend/src/functions/eventPoller/index.js`):
`getPollingRange()` runs first (this already stores the new cursor);
with no range it returns "No new blocks to poll"; otherwise
`poller.poll(range.fromBlock, range.toBlock)` performs the events RPC
query, whose failure makes `poll` throw, which propagates out of
`pollAndSignEvents`.  Returns the poller state after the run and whether
the run succeeded. -/
def pollAttempt (st : PollerState) (currentBlock : Int) (rpc : RpcOutcome) :
    PollerState × Bool :=
  match getPollingRange st currentBlock with
  | (none, st') => (st', true)
  | (some _, st') =>
    match rpc with
    | .ok => (st', true)
    | .fail => (st', false)

/-! ## State store (`src/backend/src/shared/services/dynamoService.js`)

Single-table design: items keyed by `(PK, SK)`.  The table is an
association list with unique keys; `PutCommand` with
`ConditionExpression: 'attribute_not_exists(PK)'` (and `... AND
attribute_not_exists(SK)'`) fails exactly when an item with the same
primary key `(PK, SK)` already exists (every stored item carries its key
attributes), and an unconditional `PutCommand` replaces such an item. -/

/-- Event metadata row (`createEvent`'s item, the fields the pipeline
reads; `createdAt` is the `Date.now()` at creation, making overwrites
observable). -/
structure EventRec where
  eventId : String
  txHash : String
  chain : String
  amount : String
  fromAddress : String
  toAddress : String
  status : String
  createdAt : Int
  deriving Repr, DecidableEq

/-- Signature row (`createSignature`'s item). -/
structure SigRec where
  eventId : String
  relayerId : String
  signature : String
  publicKey : String
  timestamp : Int
  deriving Repr, DecidableEq

/-- Execution row (`upsertExecution`'s item).  `upsertExecution`
destructures with defaults `retryCount = 0`, `error = null`; `txHash` is
`undefined` when the caller omits it. -/
structure ExecRec where
  eventId : String
  status : String
  txHash : Option String
  retryCount : Nat
  error : Option String
  deriving Repr, DecidableEq

/-- An item of the single table. -/
inductive Entity where
  | event (e : EventRec)
  | sig (s : SigRec)
  | exec (x : ExecRec)
  deriving Repr, DecidableEq

/-- The single table: association list from `(PK, SK)` to the item. -/
abbrev Table := List ((String × String) × Entity)

/-- `GetItem` by primary key. -/
def lookupItem (tbl : Table) (k : String × String) : Option Entity :=
  match tbl.find? (fun it => it.1 = k) with
  | none => none
  | some it => some it.2

/-- Unconditional `PutCommand`: replaces any item with the same key. -/
def putItem (tbl : Table) (k : String × String) (e : Entity) : Table :=
  (k, e) :: tbl.filter (fun it => it.1 ≠ k)

/-- Key of an event's metadata row: `PK=EVENT#{eventId}, SK=METADATA`. -/
def eventKey (eventId : String) : String × String :=
  ("EVENT#" ++ eventId, "METADATA")

/-- Key of a signature row: `PK=EVENT#{eventId}, SK=SIGNATURE#{relayerId}`. -/
def sigKey (eventId relayerId : String) : String × String :=
  ("EVENT#" ++ eventId, "SIGNATURE#" ++ relayerId)

/-- Key of an execution row: `PK=EVENT#{eventId}, SK=EXECUTION`. -/
def execKey (eventId : String) : String × String :=
  ("EVENT#" ++ eventId, "EXECUTION")

/-- `createEvent(eventData)`: conditional put of the metadata row with
`ConditionExpression: 'attribute_not_exists(PK)'`; a failed condition is
thrown, wrapped as `DynamoDBError('Failed to create event')`. -/
def createEvent (tbl : Table) (e : EventRec) : Except String Table :=
  if (lookupItem tbl (eventKey e.eventId)).isSome then
    .error "Failed to create event"
  else
    .ok (putItem tbl (eventKey e.eventId) (.event e))

/-- `isEventProcessed(eventId)`: `GetItem` on the metadata key. -/
def isEventProcessed (tbl : Table) (eventId : String) : Bool :=
  (lookupItem tbl (eventKey eventId)).isSome

/-- `createSignature(signatureData)`: conditional put of the signature row
with `ConditionExpression: 'attribute_not_exists(PK) AND
attribute_not_exists(SK)'`; a failed condition is thrown, wrapped as
`DynamoDBError('Failed to create signature')`. -/
def createSignature (tbl : Table) (s : SigRec) : Except String Table :=
  if (lookupItem tbl (sigKey s.eventId s.relayerId)).isSome then
    .error "Failed to create signature"
  else
    .ok (putItem tbl (sigKey s.eventId s.relayerId) (.sig s))

/-- `upsertExecution(executionData)`: unconditional put of the execution
row (overwrites whatever is there). -/
def upsertExecution (tbl : Table) (x : ExecRec) : Table :=
  putItem tbl (execKey x.eventId) (.exec x)

/-- `updateEventStatus(eventId, newStatus, chain)`: `UpdateCommand`
setting `status` on the metadata row (DynamoDB creates a bare item when
the key is absent; its unset attributes are modelled as `""`/`0`). -/
def updateEventStatus (tbl : Table) (eventId newStatus : String) : Table :=
  match lookupItem tbl (eventKey eventId) with
  | some (.event e) =>
    putItem tbl (eventKey eventId) (.event { e with status := newStatus })
  | _ =>
    putItem tbl (eventKey eventId)
      (.event ⟨eventId, "", "", "", "", "", newStatus, 0⟩)

/-- Number of rows of the table under one key (the table being an
association list, "exactly one Event row" is this count being 1). -/
def countKey (tbl : Table) (k : String × String) : Nat :=
  (tbl.filter (fun it => it.1 = k)).length

/-- `processEvent(event)` of the Ethereum poller, from the point where the
event data is parsed: `isEventProcessed` short-circuit returning `null`,
else `createEvent` and return the event data.  A `createEvent` throw
propagates (wrapped as `EventProcessingError`). -/
def processEvent (tbl : Table) (e : EventRec) :
    Except String (Table × Option EventRec) :=
  if isEventProcessed tbl e.eventId then
    .ok (tbl, none)
  else
    match createEvent tbl e with
    | .ok tbl' => .ok (tbl', some e)
    | .error m => .error m

/-- The signing loop of `pollAndSignEvents`: for each discovered event's
signature row, `createSignature`; a per-event throw is caught and logged
("Failed to sign event") and the loop continues with the next event. -/
def signAndStoreAll (tbl : Table) (sigs : List SigRec) : Table :=
  sigs.foldl
    (fun t s =>
      match createSignature t s with
      | .ok t' => t'
      | .error _ => t)
    tbl

/-! ## Transaction submission with retry
(`sendTransaction` in `src/backend/src/shared/services/web3Service.js`,
bundled in `src/backend/src/shared/services/signingService.js`)

The on-chain submission of one attempt is abstracted as an oracle
`attempt : Nat → Except String String`, mapping the attempt number
(1-based, as in the source's loop) to the transaction hash or the
attempt's error message. -/

/-- The retry loop of `sendTransaction` from attempt number `i` with
`fuel` attempts remaining: returns the first successful attempt's hash;
when all attempts fail it throws `Web3Error('Transaction failed after
retries')` — the per-attempt `lastError` is only logged, not rethrown. -/
def sendTransactionFrom (attempt : Nat → Except String String) :
    Nat → Nat → Except String String
  | _, 0 => .error "Transaction failed after retries"
  | i, fuel + 1 =>
    match attempt i with
    | .ok h => .ok h
    | .error _ => sendTransactionFrom attempt (i + 1) fuel

/-- `sendTransaction(contract, method, args, options, maxRetries = 3)`. -/
def sendTransaction (attempt : Nat → Except String String)
    (maxRetries : Nat := 3) : Except String String :=
  sendTransactionFrom attempt 1 maxRetries

/-- How many on-chain submission attempts the retry loop performs,
starting at attempt `i` with `fuel` attempts remaining. -/
def attemptsUsedFrom (attempt : Nat → Except String String) :
    Nat → Nat → Nat
  | _, 0 => 0
  | i, fuel + 1 =>
    match attempt i with
    | .ok _ => 1
    | .error _ => 1 + attemptsUsedFrom attempt (i + 1) fuel

/-- Submission attempts performed by `sendTransaction` with budget
`maxRetries`. -/
def attemptsUsed (attempt : Nat → Except String String)
    (maxRetries : Nat := 3) : Nat :=
  attemptsUsedFrom attempt 1 maxRetries

/-! ## Executor (`src/backend/src/functions/executor/index.js`,
mint/unlock handlers in `src/backend/src/functions/executor/`) -/

/-- `validateMintParams(eventData)` of the mint handler (throws
`Web3Error` messages). -/
def validateMintParams (e : EventRec) : Except String Unit :=
  if e.toAddress = "" then .error "Missing toAddress for mint"
  else if e.amount = "" || e.amount = "0" then .error "Invalid amount for mint"
  else if e.eventId = "" then .error "Missing eventId for mint"
  else .ok ()

/-- `validateUnlockParams(eventData)` of the unlock handler. -/
def validateUnlockParams (e : EventRec) : Except String Unit :=
  if e.toAddress = "" then .error "Missing toAddress for unlock"
  else if e.amount = "" || e.amount = "0" then .error "Invalid amount for unlock"
  else if e.eventId = "" then .error "Missing eventId for unlock"
  else .ok ()

/-- `executeMint(eventData)`: `sendTransaction` (max 3 retries) then
confirmation wait; any throw is caught and rethrown as
`Web3Error('Mint execution failed')`.  The confirmation wait
(`waitForTransaction`) is abstracted into a successful attempt, and the
receipt hash is the transaction hash. -/
def executeMint (attempt : Nat → Except String String) :
    Except String String :=
  match sendTransaction attempt 3 with
  | .ok h => .ok h
  | .error _ => .error "Mint execution failed"

/-- `executeUnlock(eventData)`: same shape as `executeMint`, rethrowing
as `Web3Error('Unlock execution failed')`. -/
def executeUnlock (attempt : Nat → Except String String) :
    Except String String :=
  match sendTransaction attempt 3 with
  | .ok h => .ok h
  | .error _ => .error "Unlock execution failed"

/-- `executeAction(action, eventData)`: dispatch on the action string;
parameter validation throws before any submission.  Also returns how
many on-chain submission attempts were made. -/
def executeAction (attempt : Nat → Except String String)
    (action : String) (e : EventRec) : Except String String × Nat :=
  if action = "MINT" then
    match validateMintParams e with
    | .error m => (.error m, 0)
    | .ok _ => (executeMint attempt, attemptsUsed attempt 3)
  else if action = "UNLOCK" then
    match validateUnlockParams e with
    | .error m => (.error m, 0)
    | .ok _ => (executeUnlock attempt, attemptsUsed attempt 3)
  else
    (.error ("Unknown action: " ++ action), 0)

/-- What one invocation of the executor Lambda did: HTTP-style status
code of the response, the response's success flag, the table afterwards,
how many on-chain submission attempts were made, and the
`upsertExecution` writes in order. -/
structure ExecutorResult where
  statusCode : Nat
  success : Bool
  tbl : Table
  submissions : Nat
  statusWrites : List ExecRec
  deriving Repr, DecidableEq

/-- `exports.handler(event)` of the executor Lambda: missing parameters
throw into the outer catch (500, nothing written); otherwise the
execution row is unconditionally set to `IN_PROGRESS` (`retryCount: 0`),
the action is executed, and on failure the row is set to `FAILED` with
the caught error's message (`retryCount` defaulting to 0), on success to
`COMPLETED` with the transaction hash and `retryCount: 0`, followed by
`updateEventStatus` to `MINTED`/`UNLOCKED`. -/
def executorHandler (attempt : Nat → Except String String) (tbl : Table)
    (eventId action : String) (eventData : Option EventRec) :
    ExecutorResult :=
  match eventData with
  | none => ⟨500, false, tbl, 0, []⟩
  | some e =>
    if eventId = "" || action = "" then ⟨500, false, tbl, 0, []⟩
    else
      let w₁ : ExecRec := ⟨eventId, "IN_PROGRESS", none, 0, none⟩
      let tbl₁ := upsertExecution tbl w₁
      match executeAction attempt action e with
      | (.error m, subs) =>
        let w₂ : ExecRec := ⟨eventId, "FAILED", none, 0, some m⟩
        ⟨500, false, upsertExecution tbl₁ w₂, subs, [w₁, w₂]⟩
      | (.ok h, subs) =>
        let w₂ : ExecRec := ⟨eventId, "COMPLETED", some h, 0, none⟩
        let tbl₂ := upsertExecution tbl₁ w₂
        let newStatus := if action = "MINT" then "MINTED" else "UNLOCKED"
        ⟨200, true, updateEventStatus tbl₂ eventId newStatus, subs, [w₁, w₂]⟩

/-! ## Validator trigger path
(`src/backend/src/functions/validator/index.js`) -/

/-- `getEventData`'s result shape (`{event, signatures, execution}`). -/
structure EventData where
  event : Option EventRec
  signatures : List SigRec
  execution : Option ExecRec
  deriving Repr, DecidableEq

/-- `getEventData(eventId)` + `buildEventDataFromItems`: query all items
with `PK = EVENT#{eventId}` and distribute them by `SK` (`METADATA`,
`SIGNATURE#...`, `EXECUTION`).  The scan fallback for a mismatched PK
format never finds anything beyond this query in the embedding, where
every row is written under the standard key format. -/
def getEventData (tbl : Table) (eventId : String) : EventData :=
  let items := tbl.filter (fun it => it.1.1 = "EVENT#" ++ eventId)
  { event :=
      items.findSome? (fun it =>
        match it with
        | ((_, "METADATA"), .event e) => some e
        | _ => none)
    signatures :=
      items.filterMap (fun it =>
        match it with
        | ((_, sk), .sig s) =>
          if sk.startsWith "SIGNATURE#" then some s else none
        | _ => none)
    execution :=
      items.findSome? (fun it =>
        match it with
        | ((_, "EXECUTION"), .exec x) => some x
        | _ => none) }

/-- A stored signature row as the consensus validator sees it: the row
always carries a truthy ISO `timestamp` string, whose epoch-millisecond
value is the row's `timestamp` field. -/
def toSig (s : SigRec) : Sig :=
  ⟨s.signature, s.relayerId, s.publicKey, some s.timestamp⟩

/-- What `validateAndTriggerExecution` reported for one event. -/
structure TriggerResult where
  success : Bool
  skipped : Bool
  action : Option String
  executorInvoked : Bool
  deriving Repr, DecidableEq

/-- `validateAndTriggerExecution(eventId)`: load the event data; missing
event → failure "Event not found"; an execution row with status
`COMPLETED` → success `{reason: 'Already executed', skipped: true}`
without touching consensus or the executor; otherwise run
`validateFullConsensus` and `determineAction`; `WAIT` → success without
invoking the executor; `ERROR` → failure; otherwise write the `PENDING`
execution row (`upsertExecution`) and invoke the executor Lambda
asynchronously (recorded as `executorInvoked`). -/
def validateAndTriggerExecution (now : Int) (tbl : Table)
    (eventId : String) : TriggerResult × Table :=
  let ed := getEventData tbl eventId
  match ed.event with
  | none => (⟨false, false, none, false⟩, tbl)
  | some ev =>
    if (match ed.execution with
        | some x => x.status == "COMPLETED"
        | none => false : Bool) then
      (⟨true, true, none, false⟩, tbl)
    else
      let consensus :=
        validateFullConsensus now (ed.signatures.map (fun s => some (toSig s)))
      let act := determineAction consensus ev.status
      if act.action = "WAIT" then (⟨true, false, some "WAIT", false⟩, tbl)
      else if act.action = "ERROR" then (⟨false, false, none, false⟩, tbl)
      else
        (⟨true, false, some act.action, true⟩,
         upsertExecution tbl ⟨eventId, "PENDING", none, 0, none⟩)


/-! ## Spec-side range description and concrete sample data
(used by the claims' theorems, witnesses and counterexamples) -/

/-- The amended spec-side `from` block: `lastProcessed + 1` when the
cursor is set and nonzero (JS truthiness), else `currentHead - 50`. -/
def specFromBlock (lp : Option Int) (cur : Int) : Int :=
  if jsTruthyInt lp then lp.getD 0 + 1 else cur - 50

/-- The amended spec-side `to` block:
`min (from + maxSpan) (currentHead - confirmationDepth)` with
`maxSpan = 500` and `confirmationDepth = 3`. -/
def specToBlock (lp : Option Int) (cur : Int) : Int :=
  min (specFromBlock lp cur + 500) (cur - 3)

/-- A structurally valid signature from relayer `1`, no timestamp. -/
def sigRelayer1 : Sig := ⟨"0xaaa1", "1", "0xA", none⟩

/-- A structurally valid signature from relayer `2`, no timestamp. -/
def sigRelayer2 : Sig := ⟨"0xbbb2", "2", "0xB", none⟩

/-- A second structurally valid signature from relayer `1` (a duplicate
vote with different bytes), no timestamp. -/
def sigRelayer1b : Sig := ⟨"0xccc1", "1", "0xA", none⟩

/-- A structurally valid signature from relayer `3`, no timestamp. -/
def sigRelayer3 : Sig := ⟨"0xddd3", "3", "0xC", none⟩

/-- A sample event with valid mint/unlock parameters. -/
def sampleEvent : EventRec :=
  ⟨"ev1", "0xdeadbeef", "ARBITRUM", "1000", "0xfrom", "0xto", "PENDING_MINT", 10⟩

/-- A submission oracle that fails transiently on attempts 1 and 2 and
succeeds on attempt 3. -/
def attemptFlaky : Nat → Except String String :=
  fun i => if i ≤ 2 then .error ("transient failure " ++ toString i) else .ok "0xfeed"

/-- A submission oracle that fails on every attempt with a distinct
message. -/
def attemptAlwaysFail : Nat → Except String String :=
  fun i => .error ("rpc timeout on attempt " ++ toString i)

/-- A submission oracle that always succeeds. -/
def attemptAlwaysOk : Nat → Except String String := fun _ => .ok "0xnew"

/-- A table holding only a `COMPLETED` execution row for `ev1`. -/
def completedExecTable : Table :=
  upsertExecution [] ⟨"ev1", "COMPLETED", some "0xold", 0, none⟩

/-- A table holding `ev1`'s metadata row and a `COMPLETED` execution row. -/
def completedEventTable : Table :=
  upsertExecution (putItem [] (eventKey "ev1") (.event sampleEvent))
    ⟨"ev1", "COMPLETED", some "0xold", 0, none⟩

/-- A stored signature row: relayer `1`'s vote on `ev1`. -/
def sampleSigRow1 : SigRec := ⟨"ev1", "1", "0xaaa1", "0xA", 50⟩

/-- A stored signature row: a retry of relayer `1`'s vote on `ev1` with
different bytes. -/
def sampleSigRow1b : SigRec := ⟨"ev1", "1", "0xccc1", "0xA", 60⟩

/-- A stored signature row: relayer `2`'s vote on `ev1`. -/
def sampleSigRow2 : SigRec := ⟨"ev1", "2", "0xbbb2", "0xB", 70⟩

/-- A table holding exactly relayer `1`'s signature row for `ev1`. -/
def oneSigTable : Table :=
  putItem [] (sigKey "ev1" "1") (.sig sampleSigRow1)

/-- A structurally valid signature from relayer `2` with different bytes
than `sigRelayer2`. -/
def sigRelayer2b : Sig := ⟨"0xeee2", "2", "0xB", none⟩

/-- Two signature-array entries that are identical except for their
(non-empty) signature byte values: both null, or both present with
non-empty bytes and the same relayer id, public key and timestamp. -/
def SigVariant : Option Sig → Option Sig → Prop
  | none, none => True
  | some x, some y =>
    x.signature ≠ "" ∧ y.signature ≠ "" ∧
    x.relayerId = y.relayerId ∧ x.publicKey = y.publicKey ∧
    x.timestamp = y.timestamp
  | _, _ => False

/-! ## Shared lemmas about the state store -/

/-- Looking up the key just written finds the written item. -/
theorem lookupItem_putItem_self (tbl : Table) (k : String × String)
    (e : Entity) : lookupItem (putItem tbl k e) k = some e := by
  simp [lookupItem, putItem, List.find?]

/-- After a write there is exactly one row under the written key. -/
theorem countKey_putItem_self (tbl : Table) (k : String × String)
    (e : Entity) : countKey (putItem tbl k e) k = 1 := by
  simp only [countKey, putItem]
  rw [List.filter_cons_of_pos (by simp)]
  have hnil : (tbl.filter (fun it => it.1 ≠ k)).filter (fun it => it.1 = k) = [] := by
    refine List.filter_eq_nil_iff.mpr fun a ha => ?_
    have hmem := List.of_mem_filter ha
    simp at hmem ⊢
    exact hmem
  rw [hnil]
  rfl

/-- Writing one key does not change the row count under another key. -/
theorem countKey_putItem_ne (tbl : Table) (k k' : String × String)
    (e : Entity) (h : k' ≠ k) :
    countKey (putItem tbl k e) k' = countKey tbl k' := by
  simp only [countKey, putItem]
  rw [List.filter_cons_of_neg (by simpa using fun hk => h hk.symm)]
  rw [List.filter_filter]
  congr 1
  refine List.filter_congr fun a _ => ?_
  by_cases ha : a.1 = k'
  · have hk : ¬a.1 = k := fun hak => h (ha ▸ hak ▸ rfl)
    simp [ha, hk]
    exact h
  · simp [ha]

/-- A key with no rows in the table looks up to nothing. -/
theorem lookupItem_eq_none_of_countKey_zero (tbl : Table)
    (k : String × String) (h : countKey tbl k = 0) :
    lookupItem tbl k = none := by
  simp only [countKey, List.length_eq_zero] at h
  simp only [lookupItem]
  have hfind : tbl.find? (fun it => it.1 = k) = none := by
    refine List.find?_eq_none.mpr fun x hx => ?_
    have hmem := List.filter_eq_nil_iff.mp h x hx
    simpa using hmem
  rw [hfind]

/-- `getPollingRange` as a single equation against the spec-side range. -/
theorem getPollingRange_eq (lp : Option Int) (cur : Int) :
    getPollingRange ⟨lp⟩ cur =
      if specFromBlock lp cur > specToBlock lp cur then (none, ⟨lp⟩)
      else (some (specFromBlock lp cur, specToBlock lp cur),
            ⟨some (specToBlock lp cur)⟩) := by
  cases lp with
  | none => simp [getPollingRange, specFromBlock, specToBlock, jsTruthyInt]
  | some v =>
    by_cases hv : v = 0 <;>
      simp [getPollingRange, specFromBlock, specToBlock, jsTruthyInt, hv]

/-! ## C9 — polling-range computation -/

/-- C9 counterexample: with a recorded cursor of `0` (a known block
number) and head `100`, `getPollingRange` computes `from = 100 - 50 = 50`
rather than `lastProcessed + 1 = 1`: JavaScript truthiness treats the
cursor value `0` as unset. -/
theorem C9_cex_cursor_zero :
    (getPollingRange ⟨some 0⟩ 100).1 = some (50, 97) ∧ (50 : Int) ≠ 0 + 1 :=
  ⟨rfl, by decide⟩

/-- C9 (amended): the polling range is `from = lastProcessed + 1` when
the cursor is set and nonzero (JS truthiness: a recorded cursor of `0`
falls back to the unknown case `currentHead - 50`);
`to = min (from + 500) (currentHead - 3)`; the result is `None` exactly
when `from > to`, and otherwise the range is returned with the cursor
advanced to `to`. -/
theorem C9_polling_range (lp : Option Int) (cur : Int) :
    (specFromBlock lp cur > specToBlock lp cur →
      getPollingRange ⟨lp⟩ cur = (none, ⟨lp⟩)) ∧
    (specFromBlock lp cur ≤ specToBlock lp cur →
      getPollingRange ⟨lp⟩ cur =
        (some (specFromBlock lp cur, specToBlock lp cur),
         ⟨some (specToBlock lp cur)⟩)) := by
  refine ⟨fun hgt => ?_, fun hle => ?_⟩
  · rw [getPollingRange_eq]
    exact if_pos hgt
  · rw [getPollingRange_eq]
    exact if_neg (not_lt.mpr hle)

/-- C9 witness: the amended statement instantiated at cursor `100` and
head `200`, where the computed range is `(101, 197)`. -/
theorem C9_polling_range_witness :
    getPollingRange ⟨some 100⟩ 200 =
      (some (specFromBlock (some 100) 200, specToBlock (some 100) 200),
       ⟨some (specToBlock (some 100) 200)⟩) :=
  (C9_polling_range (some 100) 200).2 (by decide)

/-! ## C3 — cursor advancement on a failed poll -/

/-- C3: at cursor `100` and head `200`, a run whose events RPC query
fails still leaves the cursor advanced to `197` (`getPollingRange`
stores the new cursor before the query runs); at an unchanged head the
next run finds no range, and once the head moves to `250` the next range
starts at `198` — blocks `101`–`197` are never polled again, against the
claim that the failed range is retried. -/
theorem C3_cursor_advances_on_rpc_failure :
    pollAttempt ⟨some 100⟩ 200 .fail = (⟨some 197⟩, false) ∧
    (getPollingRange ⟨some 197⟩ 200).1 = none ∧
    (getPollingRange ⟨some 197⟩ 250).1 = some (198, 247) :=
  ⟨rfl, rfl, rfl⟩

/-! ## C10 — signatures without a timestamp are always fresh -/

/-- C10: a signature whose timestamp field is absent or falsy (`none`)
is skipped by the freshness check: it is never expired at any clock
value; a signature set that is all timestamp-free passes the timing
check at any clock value; and a failed timing check exhibits a signature
that carries a timestamp and is older than the window — so only
timestamped signatures can cause the "Signature expired" rejection. -/
theorem C10_no_timestamp_always_fresh (now m : Int) (sigs : List Sig) :
    (∀ s ∈ sigs, s.timestamp = none →
      sigExpired now (m * 60 * 1000) s = false) ∧
    ((∀ s ∈ sigs, s.timestamp = none) →
      validateSignatureTiming now sigs m = true) ∧
    (validateSignatureTiming now sigs m = false →
      ∃ s ∈ sigs, ∃ t, s.timestamp = some t ∧ now - t > m * 60 * 1000) := by
  refine ⟨fun s _ hs => by simp [sigExpired, hs], fun hall => ?_, fun hfail => ?_⟩
  · refine List.all_eq_true.mpr fun s hs => ?_
    simp [sigExpired, hall s hs]
  · rw [validateSignatureTiming, List.all_eq_false] at hfail
    rcases hfail with ⟨s, hs, hexp0⟩
    have hexp : sigExpired now (m * 60 * 1000) s = true := by simpa using hexp0
    refine ⟨s, hs, ?_⟩
    cases hts : s.timestamp with
    | none => rw [sigExpired, hts] at hexp; cases hexp
    | some t =>
      refine ⟨t, rfl, ?_⟩
      rw [sigExpired, hts] at hexp
      simpa using hexp

/-! ## C4 — idempotent event ingestion -/

/-- C4: starting from a store with no row for the event's key, a first
`processEvent` (ingest) creates exactly one Event row and returns the
event; re-ingesting any raw event with the same `eventId` (same or
overlapping poll window) returns "already existed" (`none`) and leaves
the store unchanged; and the underlying compare-and-set insert
(`createEvent`, condition `attribute_not_exists(PK)`) rejects a direct
second insert outright — so concurrent watcher instances racing on the
same blocks cannot create a second row. -/
theorem C4_ingest_idempotent (tbl : Table) (e e₂ : EventRec)
    (hfresh : countKey tbl (eventKey e.eventId) = 0)
    (hid : e₂.eventId = e.eventId) :
    ∃ tbl₁, processEvent tbl e = .ok (tbl₁, some e) ∧
      countKey tbl₁ (eventKey e.eventId) = 1 ∧
      processEvent tbl₁ e₂ = .ok (tbl₁, none) ∧
      createEvent tbl₁ e₂ = .error "Failed to create event" := by
  have hnone := lookupItem_eq_none_of_countKey_zero tbl _ hfresh
  refine ⟨putItem tbl (eventKey e.eventId) (.event e), ?_, ?_, ?_, ?_⟩
  · simp [processEvent, isEventProcessed, createEvent, hnone]
  · exact countKey_putItem_self tbl _ _
  · simp [processEvent, isEventProcessed, hid, lookupItem_putItem_self]
  · simp [createEvent, hid, lookupItem_putItem_self]

/-- C4 witness: ingesting `sampleEvent` twice into an empty store. -/
theorem C4_ingest_idempotent_witness :
    ∃ tbl₁, processEvent [] sampleEvent = .ok (tbl₁, some sampleEvent) ∧
      countKey tbl₁ (eventKey sampleEvent.eventId) = 1 ∧
      processEvent tbl₁ sampleEvent = .ok (tbl₁, none) ∧
      createEvent tbl₁ sampleEvent = .error "Failed to create event" :=
  C4_ingest_idempotent [] sampleEvent sampleEvent rfl rfl

/-! ## C5 — no double voting -/

/-- C5: over any sequence of signing attempts (`signAndStoreAll` folds
`createSignature` over attempts, continuing past failures exactly as the
poller's signing loop does), a store holding at most one Signature row
for a given (`eventId`, `relayerId`) pair still holds at most one
afterwards — the conditional put (`attribute_not_exists(PK) AND
attribute_not_exists(SK)`) rejects every later attempt; and a rejected
duplicate attempt leaves the store exactly as if the attempt had not
happened, so it does not block the remaining events or relayers in the
same batch. -/
theorem C5_no_double_voting (tbl tbl' : Table) (ss rest : List SigRec)
    (s : SigRec) (eid rid : String) :
    (countKey tbl (sigKey eid rid) ≤ 1 →
      countKey (signAndStoreAll tbl ss) (sigKey eid rid) ≤ 1) ∧
    ((lookupItem tbl' (sigKey s.eventId s.relayerId)).isSome = true →
      signAndStoreAll tbl' (s :: rest) = signAndStoreAll tbl' rest) := by
  constructor
  · intro h
    induction ss generalizing tbl with
    | nil => simpa [signAndStoreAll] using h
    | cons s₀ rest₀ ih =>
      rw [signAndStoreAll, List.foldl_cons]
      by_cases hlk : (lookupItem tbl (sigKey s₀.eventId s₀.relayerId)).isSome = true
      · rw [show createSignature tbl s₀ = .error "Failed to create signature" by
            simp [createSignature, hlk]]
        exact ih tbl h
      · rw [show createSignature tbl s₀ =
            .ok (putItem tbl (sigKey s₀.eventId s₀.relayerId) (.sig s₀)) by
            simp [createSignature, hlk]]
        refine ih _ ?_
        by_cases hk : (sigKey eid rid) = (sigKey s₀.eventId s₀.relayerId)
        · rw [hk, countKey_putItem_self]
        · rw [countKey_putItem_ne _ _ _ _ hk]
          exact h
  · intro h
    rw [signAndStoreAll, List.foldl_cons,
        show createSignature tbl' s = .error "Failed to create signature" by
          simp [createSignature, h]]
    rfl

/-- C5 witness: three attempts (relayer 1 twice with different bytes,
then relayer 2) against an empty store leave at most one row for
(`ev1`, relayer `1`); and against a store already holding relayer 1's
row, the duplicate attempt is a no-op that does not block relayer 2. -/
theorem C5_no_double_voting_witness :
    countKey (signAndStoreAll [] [sampleSigRow1, sampleSigRow1b, sampleSigRow2])
      (sigKey "ev1" "1") ≤ 1 ∧
    signAndStoreAll oneSigTable (sampleSigRow1b :: [sampleSigRow2]) =
      signAndStoreAll oneSigTable [sampleSigRow2] :=
  ⟨(C5_no_double_voting [] oneSigTable [sampleSigRow1, sampleSigRow1b, sampleSigRow2]
      [sampleSigRow2] sampleSigRow1b "ev1" "1").1 (by decide),
   (C5_no_double_voting [] oneSigTable [sampleSigRow1, sampleSigRow1b, sampleSigRow2]
      [sampleSigRow2] sampleSigRow1b "ev1" "1").2 (by decide)⟩

/-! ## C2 — quorum decision vs. the unique/fresh signature count -/

/-- C2 counterexample: three structurally valid, fresh signatures, two of
them from relayer `1`.  The number of valid, unique, fresh signatures is
2 ≥ T = 2, yet the code does not report quorum: `validateConsensus`
counts 3 ≥ 2 and then `validateUniqueRelayers` throws on the duplicate,
making the overall result invalid — so "quorum iff unique fresh valid
count ≥ T" fails in the left-to-right-counting direction. -/
theorem C2_cex_duplicate_breaks_iff :
    specQuorumCount 0 [some sigRelayer1, some sigRelayer2, some sigRelayer1b] =
      REQUIRED_SIGNATURES ∧
    (validateFullConsensus 0
      [some sigRelayer1, some sigRelayer2, some sigRelayer1b]).isValid = false ∧
    (validateFullConsensus 0
      [some sigRelayer1, some sigRelayer2, some sigRelayer1b]).errMsg =
      some "Duplicate relayer signatures detected" := by
  refine ⟨by decide, by decide, by decide⟩

/-- C2 (amended): the consensus validation reports quorum iff the
structurally valid signature count is at least the threshold T = 2 AND
the structurally valid signatures contain no duplicate relayer id AND
none of them is expired (a duplicate or an expired signature among them
vetoes the whole set, even when T unique fresh signatures remain);
quorum-reached still implies the unique, fresh, valid count is ≥ T; and
when the valid count is below threshold the result is the non-error
`INSUFFICIENT_SIGNATURES` reason, which `determineAction` maps to WAIT. -/
theorem C2_quorum_decision (now : Int) (sigs : List (Option Sig))
    (st : String) :
    ((validateFullConsensus now sigs).isValid = true ↔
      ((validateConsensus sigs).validSignatures ≥ REQUIRED_SIGNATURES ∧
       hasDuplicateRelayers (validateConsensus sigs).signatures = false ∧
       validateSignatureTiming now (validateConsensus sigs).signatures = true)) ∧
    ((validateFullConsensus now sigs).isValid = true →
      specQuorumCount now sigs ≥ REQUIRED_SIGNATURES) ∧
    ((validateConsensus sigs).validSignatures < REQUIRED_SIGNATURES →
      (validateFullConsensus now sigs).reason = some "INSUFFICIENT_SIGNATURES" ∧
      (validateFullConsensus now sigs).errMsg = none ∧
      (determineAction (validateFullConsensus now sigs) st).action = "WAIT") := by
  have hc : validateConsensus sigs =
      { hasConsensus := ((sigs.filterMap id).filter structValid).length ≥ REQUIRED_SIGNATURES
        validSignatures := ((sigs.filterMap id).filter structValid).length
        requiredSignatures := REQUIRED_SIGNATURES
        signatures := (sigs.filterMap id).filter structValid } := rfl
  by_cases hlen :
      ((sigs.filterMap id).filter structValid).length ≥ REQUIRED_SIGNATURES
  case neg =>
    have hfull : validateFullConsensus now sigs =
        { isValid := false, reason := some "INSUFFICIENT_SIGNATURES", errMsg := none
          validSignatures := some ((sigs.filterMap id).filter structValid).length
          requiredSignatures := some REQUIRED_SIGNATURES } := by
      simp [validateFullConsensus, hc, hlen]
    refine ⟨?_, ?_, ?_⟩
    · rw [hfull, hc]
      simp [hlen]
    · rw [hfull]
      simp
    · intro hlt
      rw [hfull]
      exact ⟨rfl, rfl, by simp [determineAction, hfull]⟩
  case pos =>
    by_cases hdup :
        hasDuplicateRelayers ((sigs.filterMap id).filter structValid) = true
    case pos =>
      have hfull : validateFullConsensus now sigs =
          { isValid := false, reason := some "CONSENSUS_ERROR"
            errMsg := some "Duplicate relayer signatures detected"
            validSignatures := none, requiredSignatures := none } := by
        simp [validateFullConsensus, hc, hlen, hdup]
      refine ⟨?_, ?_, ?_⟩
      · rw [hfull, hc]
        simp [hdup]
      · rw [hfull]
        simp
      · intro hlt
        simp only [hc] at hlt
        omega
    case neg =>
      by_cases htim :
          validateSignatureTiming now ((sigs.filterMap id).filter structValid) = true
      case neg =>
        have hfull : validateFullConsensus now sigs =
            { isValid := false, reason := some "CONSENSUS_ERROR"
              errMsg := some "Signature expired"
              validSignatures := none, requiredSignatures := none } := by
          simp [validateFullConsensus, hc, hlen, hdup, htim]
        refine ⟨?_, ?_, ?_⟩
        · rw [hfull, hc]
          simp [htim]
        · rw [hfull]
          simp
        · intro hlt
          simp only [hc] at hlt
          omega
      case pos =>
        have hfull : validateFullConsensus now sigs =
            { isValid := true, reason := none, errMsg := none
              validSignatures := some ((sigs.filterMap id).filter structValid).length
              requiredSignatures := some REQUIRED_SIGNATURES } := by
          simp [validateFullConsensus, hc, hlen, hdup, htim]
        refine ⟨?_, fun _ => ?_, ?_⟩
        · rw [hfull, hc]
          simp [hlen, hdup, htim]
        · have hfresh :
              ((sigs.filterMap id).filter structValid).filter
                (fun s => !sigExpired now (30 * 60 * 1000) s) =
              (sigs.filterMap id).filter structValid := by
            refine List.filter_eq_self.mpr fun a ha => ?_
            have hfa := List.all_eq_true.mp htim a ha
            simpa using hfa
          have hlen_eq :
              (((sigs.filterMap id).filter structValid).map (·.relayerId)).length =
              (((sigs.filterMap id).filter structValid).map (·.relayerId)).dedup.length := by
            by_contra hne
            exact hdup (by simpa [hasDuplicateRelayers] using hne)
          simp only [specQuorumCount]
          rw [hfresh, ← hlen_eq, List.length_map]
          exact hlen
        · intro hlt
          simp only [hc] at hlt
          omega


/-- C2 witness: the amended statement at two distinct fresh valid
signatures — quorum is reached and the spec-side count is 2. -/
theorem C2_quorum_decision_witness :
    ((validateFullConsensus 0 [some sigRelayer1, some sigRelayer2]).isValid = true ↔
      ((validateConsensus [some sigRelayer1, some sigRelayer2]).validSignatures ≥
         REQUIRED_SIGNATURES ∧
       hasDuplicateRelayers
         (validateConsensus [some sigRelayer1, some sigRelayer2]).signatures = false ∧
       validateSignatureTiming 0
         (validateConsensus [some sigRelayer1, some sigRelayer2]).signatures = true)) ∧
    ((validateFullConsensus 0 [some sigRelayer1, some sigRelayer2]).isValid = true →
      specQuorumCount 0 [some sigRelayer1, some sigRelayer2] ≥ REQUIRED_SIGNATURES) ∧
    ((validateConsensus [some sigRelayer1, some sigRelayer2]).validSignatures <
        REQUIRED_SIGNATURES →
      (validateFullConsensus 0 [some sigRelayer1, some sigRelayer2]).reason =
        some "INSUFFICIENT_SIGNATURES" ∧
      (validateFullConsensus 0 [some sigRelayer1, some sigRelayer2]).errMsg = none ∧
      (determineAction (validateFullConsensus 0 [some sigRelayer1, some sigRelayer2])
        "PENDING_MINT").action = "WAIT") :=
  C2_quorum_decision 0 [some sigRelayer1, some sigRelayer2] "PENDING_MINT"

/-! ## C7 — quorum monotonicity -/

/-- `hasDuplicateRelayers` is exactly non-`Nodup` of the relayer ids. -/
theorem hasDuplicateRelayers_eq_false_iff (sigs : List Sig) :
    hasDuplicateRelayers sigs = false ↔ (sigs.map (·.relayerId)).Nodup := by
  simp only [hasDuplicateRelayers]
  constructor
  · intro h
    have hlen : (sigs.map (·.relayerId)).length =
        (sigs.map (·.relayerId)).dedup.length := by
      simpa using h
    have hd := List.dedup_sublist (sigs.map (·.relayerId))
    exact List.dedup_eq_self.mp (hd.eq_of_length hlen.symm)
  · intro h
    have hde : (sigs.map (·.relayerId)).dedup = sigs.map (·.relayerId) :=
      List.dedup_eq_self.mpr h
    simp [hde]

/-- The quorum decision as a predicate of the filtered signature list. -/
theorem isValid_iff_conditions (now : Int) (sigs : List (Option Sig)) :
    (validateFullConsensus now sigs).isValid = true ↔
      (((sigs.filterMap id).filter structValid).length ≥ REQUIRED_SIGNATURES ∧
       hasDuplicateRelayers ((sigs.filterMap id).filter structValid) = false ∧
       validateSignatureTiming now ((sigs.filterMap id).filter structValid) = true) := by
  have hc : validateConsensus sigs =
      { hasConsensus := ((sigs.filterMap id).filter structValid).length ≥ REQUIRED_SIGNATURES
        validSignatures := ((sigs.filterMap id).filter structValid).length
        requiredSignatures := REQUIRED_SIGNATURES
        signatures := (sigs.filterMap id).filter structValid } := rfl
  by_cases hlen :
      ((sigs.filterMap id).filter structValid).length ≥ REQUIRED_SIGNATURES
  · by_cases hdup :
        hasDuplicateRelayers ((sigs.filterMap id).filter structValid) = true
    · simp [validateFullConsensus, hc, hlen, hdup]
    · by_cases htim :
          validateSignatureTiming now ((sigs.filterMap id).filter structValid) = true
      · simp [validateFullConsensus, hc, hlen, hdup, htim]
      · simp [validateFullConsensus, hc, hlen, hdup, htim]
  · simp [validateFullConsensus, hc, hlen]

/-- C7 counterexample: two distinct fresh valid signatures reach quorum,
but adding one more signature that is itself structurally valid and
fresh — relayer `1` voting again with different bytes — flips the
decision back to WAIT: the superset trips `validateUniqueRelayers`, so
quorum is not monotone under adding valid signatures. -/
theorem C7_cex_superset_flips_to_wait :
    (validateFullConsensus 0 [some sigRelayer1, some sigRelayer2]).isValid = true ∧
    structValid sigRelayer1b = true ∧
    sigExpired 0 (30 * 60 * 1000) sigRelayer1b = false ∧
    (validateFullConsensus 0
      ([some sigRelayer1, some sigRelayer2] ++ [some sigRelayer1b])).isValid = false ∧
    (determineAction
      (validateFullConsensus 0
        ([some sigRelayer1, some sigRelayer2] ++ [some sigRelayer1b]))
      "PENDING_MINT").action = "WAIT" := by
  decide

/-- C7 (amended): quorum is monotone under adding valid signatures from
fresh, previously-unseen relayers: if `validateFullConsensus` reports
quorum for a signature set, it still reports quorum after appending any
signatures whose structurally valid members are unexpired, have
pairwise-distinct relayer ids, and use relayer ids disjoint from those
already counted.  (Adding a duplicate-relayer or expired signature can
flip the decision back to WAIT — see the counterexample.) -/
theorem C7_quorum_monotone (now : Int) (sigs extra : List (Option Sig))
    (hq : (validateFullConsensus now sigs).isValid = true)
    (htim : validateSignatureTiming now
      ((extra.filterMap id).filter structValid) = true)
    (hnodup : (((extra.filterMap id).filter structValid).map (·.relayerId)).Nodup)
    (hdisj : ∀ r ∈ ((extra.filterMap id).filter structValid).map (·.relayerId),
      r ∉ ((sigs.filterMap id).filter structValid).map (·.relayerId)) :
    (validateFullConsensus now (sigs ++ extra)).isValid = true := by
  obtain ⟨hlen, hdup, htim0⟩ := (isValid_iff_conditions now sigs).mp hq
  refine (isValid_iff_conditions now (sigs ++ extra)).mpr ?_
  have happ : ((sigs ++ extra).filterMap id).filter structValid =
      ((sigs.filterMap id).filter structValid) ++
      ((extra.filterMap id).filter structValid) := by
    rw [List.filterMap_append, List.filter_append]
  rw [happ]
  refine ⟨?_, ?_, ?_⟩
  · rw [List.length_append]
    exact Nat.le_trans hlen (Nat.le_add_right _ _)
  · rw [hasDuplicateRelayers_eq_false_iff, List.map_append]
    refine List.nodup_append.mpr ⟨?_, hnodup, ?_⟩
    · exact (hasDuplicateRelayers_eq_false_iff _).mp hdup
    · intro r hr hr'
      exact hdisj r hr' hr
  · rw [validateSignatureTiming, List.all_append]
    have h1 : ((sigs.filterMap id).filter structValid).all
        (fun s => !sigExpired now (30 * 60 * 1000) s) = true := htim0
    have h2 : ((extra.filterMap id).filter structValid).all
        (fun s => !sigExpired now (30 * 60 * 1000) s) = true := htim
    rw [h1, h2]
    rfl

/-- C7 witness: quorum over relayers 1 and 2 stays quorum after adding a
fresh valid signature from the unseen relayer 3. -/
theorem C7_quorum_monotone_witness :
    (validateFullConsensus 0
      ([some sigRelayer1, some sigRelayer2] ++ [some sigRelayer3])).isValid = true :=
  C7_quorum_monotone 0 [some sigRelayer1, some sigRelayer2] [some sigRelayer3]
    (by decide) (by decide) (by decide) (by decide)

/-! ## C8 — the decision never inspects the signature bytes -/

/-- Timing depends only on the timestamps of the signatures. -/
theorem timing_eq_of_timestamps_eq (now m : Int) :
    ∀ v₁ v₂ : List Sig, v₁.map (·.timestamp) = v₂.map (·.timestamp) →
      validateSignatureTiming now v₁ m = validateSignatureTiming now v₂ m := by
  intro v₁
  induction v₁ with
  | nil =>
    intro v₂ h
    cases v₂ with
    | nil => rfl
    | cons b bs => simp at h
  | cons a as ih =>
    intro v₂ h
    cases v₂ with
    | nil => simp at h
    | cons b bs =>
      simp only [List.map_cons, List.cons.injEq] at h
      obtain ⟨hts, hrest⟩ := h
      have hexp : sigExpired now (m * 60 * 1000) a =
          sigExpired now (m * 60 * 1000) b := by
        unfold sigExpired
        rw [hts]
      have htl := ih bs hrest
      simp only [validateSignatureTiming, List.all_cons] at htl ⊢
      rw [hexp, htl]

/-- Forall₂-related inputs filter to signatures with the same relayer ids
and the same timestamps (the variant relation fixes everything the filter
and the later checks read, except the bytes). -/
theorem variant_filtered_maps :
    ∀ sigs₁ sigs₂ : List (Option Sig), List.Forall₂ SigVariant sigs₁ sigs₂ →
      (((sigs₁.filterMap id).filter structValid).map (·.relayerId) =
        ((sigs₂.filterMap id).filter structValid).map (·.relayerId)) ∧
      (((sigs₁.filterMap id).filter structValid).map (·.timestamp) =
        ((sigs₂.filterMap id).filter structValid).map (·.timestamp)) := by
  intro sigs₁ sigs₂ h
  induction h with
  | nil => exact ⟨rfl, rfl⟩
  | @cons a b as bs hab _ ih =>
    cases a with
    | none =>
      cases b with
      | none => simpa using ih
      | some y => exact absurd hab (by simp [SigVariant])
    | some x =>
      cases b with
      | none => exact absurd hab (by simp [SigVariant])
      | some y =>
        obtain ⟨hx, hy, hrid, hpk, hts⟩ := hab
        have hsv : structValid x = structValid y := by
          simp only [structValid, hrid, hpk]
          simp [hx, hy]
        by_cases hv : structValid x = true
        · have hv' : structValid y = true := hsv ▸ hv
          simp only [List.filterMap_cons, Option.some.injEq, id]
          rw [List.filter_cons_of_pos hv, List.filter_cons_of_pos hv']
          simp only [List.map_cons]
          exact ⟨by rw [hrid, ih.1], by rw [hts, ih.2]⟩
        · have hv' : ¬structValid y = true := fun hc => hv (hsv ▸ hc)
          simp only [List.filterMap_cons, id]
          rw [List.filter_cons_of_neg hv, List.filter_cons_of_neg hv']
          exact ih

/-- The full consensus result depends only on the filtered relayer ids
and timestamps. -/
theorem validateFullConsensus_congr (now : Int)
    (sigs₁ sigs₂ : List (Option Sig))
    (hrel : ((sigs₁.filterMap id).filter structValid).map (·.relayerId) =
            ((sigs₂.filterMap id).filter structValid).map (·.relayerId))
    (hts : ((sigs₁.filterMap id).filter structValid).map (·.timestamp) =
           ((sigs₂.filterMap id).filter structValid).map (·.timestamp)) :
    validateFullConsensus now sigs₁ = validateFullConsensus now sigs₂ := by
  have hlen : ((sigs₁.filterMap id).filter structValid).length =
      ((sigs₂.filterMap id).filter structValid).length := by
    simpa using congrArg List.length hrel
  have hdup : hasDuplicateRelayers ((sigs₁.filterMap id).filter structValid) =
      hasDuplicateRelayers ((sigs₂.filterMap id).filter structValid) := by
    simp only [hasDuplicateRelayers]
    rw [hrel]
  have htim : validateSignatureTiming now
        ((sigs₁.filterMap id).filter structValid) 30 =
      validateSignatureTiming now ((sigs₂.filterMap id).filter structValid) 30 :=
    timing_eq_of_timestamps_eq now 30 _ _ hts
  simp only [validateFullConsensus, validateConsensus]
  rw [hlen, hdup, htim]

/-- C8: the WAIT/QUORUM decision does not depend on the signature byte
values: for two signature arrays identical except for their (non-empty)
bytes, `validateFullConsensus` returns the same result and
`determineAction` resolves the same action — the hot path counts
signatures without cryptographically verifying them (the existing
`verifySignature` is not consulted). -/
theorem C8_decision_ignores_bytes (now : Int)
    (sigs₁ sigs₂ : List (Option Sig)) (st : String)
    (h : List.Forall₂ SigVariant sigs₁ sigs₂) :
    validateFullConsensus now sigs₁ = validateFullConsensus now sigs₂ ∧
    determineAction (validateFullConsensus now sigs₁) st =
      determineAction (validateFullConsensus now sigs₂) st := by
  obtain ⟨hrel, hts⟩ := variant_filtered_maps sigs₁ sigs₂ h
  have hfull := validateFullConsensus_congr now sigs₁ sigs₂ hrel hts
  exact ⟨hfull, by rw [hfull]⟩

/-- C8 witness: replacing both quorum signatures' bytes wholesale leaves
the consensus result and the resolved action unchanged. -/
theorem C8_decision_ignores_bytes_witness :
    validateFullConsensus 0 [some sigRelayer1, some sigRelayer2] =
      validateFullConsensus 0 [some sigRelayer1b, some sigRelayer2b] ∧
    determineAction (validateFullConsensus 0 [some sigRelayer1, some sigRelayer2])
        "PENDING_MINT" =
      determineAction (validateFullConsensus 0 [some sigRelayer1b, some sigRelayer2b])
        "PENDING_MINT" :=
  C8_decision_ignores_bytes 0 [some sigRelayer1, some sigRelayer2]
    [some sigRelayer1b, some sigRelayer2b] "PENDING_MINT"
    (List.Forall₂.cons ⟨by decide, by decide, rfl, rfl, rfl⟩
      (List.Forall₂.cons ⟨by decide, by decide, rfl, rfl, rfl⟩ List.Forall₂.nil))

/-! ## C1 — executor re-entry vs. the validator-side guard -/

/-- `find?` only looks at the predicate pointwise. -/
theorem find?_ext {α : Type} (p q : α → Bool) :
    ∀ l : List α, (∀ a, p a = q a) → l.find? p = l.find? q := by
  intro l h
  induction l with
  | nil => rfl
  | cons a as ih => rw [List.find?_cons, List.find?_cons, h a, ih]

/-- Writing one key leaves lookups of other keys alone. -/
theorem lookupItem_putItem_ne (tbl : Table) (k k' : String × String)
    (e : Entity) (h : k' ≠ k) :
    lookupItem (putItem tbl k e) k' = lookupItem tbl k' := by
  simp only [lookupItem, putItem]
  rw [List.find?_cons]
  have hke : (decide ((k, e).1 = k')) = false := by
    simp only [decide_eq_false_iff_not]
    exact fun hkk => h hkk.symm
  simp only [hke]
  rw [List.find?_filter]
  have hpt : ∀ a : (String × String) × Entity,
      (decide ((decide (a.1 ≠ k)) = true ∧ (decide (a.1 = k')) = true)) =
        (decide (a.1 = k')) := by
    intro a
    by_cases ha : a.1 = k'
    · have hak : a.1 ≠ k := fun hak => h (ha.symm.trans hak)
      simp [ha, h]
    · simp [ha]
  rw [find?_ext _ _ tbl hpt]

/-- C1 counterexample: with the Execution row for `ev1` already
`COMPLETED`, a direct second invocation of the executor handler still
submits an on-chain transaction (one submission attempt) and re-enters
`IN_PROGRESS` on its way to overwriting the row — the handler consults
no prior execution state. -/
theorem C1_cex_executor_resubmits :
    lookupItem completedExecTable (execKey "ev1") =
      some (.exec ⟨"ev1", "COMPLETED", some "0xold", 0, none⟩) ∧
    (executorHandler attemptAlwaysOk completedExecTable "ev1" "MINT"
      (some sampleEvent)).submissions = 1 ∧
    ⟨"ev1", "IN_PROGRESS", none, 0, none⟩ ∈
      (executorHandler attemptAlwaysOk completedExecTable "ev1" "MINT"
        (some sampleEvent)).statusWrites := by
  decide

/-- C1 (amended): the idempotent short-circuit lives in the Consensus
Validator's trigger path, not in the executor: whenever the stored
Execution row's status is already `COMPLETED`,
`validateAndTriggerExecution` returns success with `skipped` set, leaves
the store untouched and does not invoke the executor — so no second
on-chain transaction is submitted through the trigger path.  (A direct
second call of the executor itself resubmits; see the counterexample.) -/
theorem C1_validator_guard (now : Int) (tbl : Table) (eventId : String)
    (ev : EventRec) (x : ExecRec)
    (hev : (getEventData tbl eventId).event = some ev)
    (hex : (getEventData tbl eventId).execution = some x)
    (hst : x.status = "COMPLETED") :
    validateAndTriggerExecution now tbl eventId =
      (⟨true, true, none, false⟩, tbl) := by
  simp [validateAndTriggerExecution, hev, hex, hst]

/-- C1 witness: the validator guard at a store holding `ev1`'s metadata
and a `COMPLETED` execution row. -/
theorem C1_validator_guard_witness :
    validateAndTriggerExecution 0 completedEventTable "ev1" =
      (⟨true, true, none, false⟩, completedEventTable) :=
  C1_validator_guard 0 completedEventTable "ev1" sampleEvent
    ⟨"ev1", "COMPLETED", some "0xold", 0, none⟩ (by decide) (by decide) rfl

/-! ## C6 — retry bookkeeping of the executor -/

/-- One unfolding step of the retry loop with fuel left. -/
theorem sendTransactionFrom_succ (attempt : Nat → Except String String)
    (i fuel : Nat) :
    sendTransactionFrom attempt i (fuel + 1) =
      match attempt i with
      | .ok h => .ok h
      | .error _ => sendTransactionFrom attempt (i + 1) fuel := rfl

/-- One unfolding step of the attempt counter with fuel left. -/
theorem attemptsUsedFrom_succ (attempt : Nat → Except String String)
    (i fuel : Nat) :
    attemptsUsedFrom attempt i (fuel + 1) =
      match attempt i with
      | .ok _ => 1
      | .error _ => 1 + attemptsUsedFrom attempt (i + 1) fuel := rfl

/-- `updateEventStatus` always writes under the event's metadata key. -/
theorem updateEventStatus_eq_putItem (t : Table) (id st : String) :
    ∃ ent : Entity, updateEventStatus t id st = putItem t (eventKey id) ent := by
  unfold updateEventStatus
  cases lookupItem t (eventKey id) with
  | none => exact ⟨_, rfl⟩
  | some ent =>
    cases ent with
    | event ev => exact ⟨_, rfl⟩
    | sig s => exact ⟨_, rfl⟩
    | exec x => exact ⟨_, rfl⟩

/-- `updateEventStatus` does not touch the execution row. -/
theorem lookupItem_updateEventStatus_execKey (t : Table) (id st : String) :
    lookupItem (updateEventStatus t id st) (execKey id) =
      lookupItem t (execKey id) := by
  obtain ⟨ent, hent⟩ := updateEventStatus_eq_putItem t id st
  rw [hent, lookupItem_putItem_ne]
  intro hcc
  exact absurd (congrArg Prod.snd hcc)
    (by decide : ¬("EXECUTION" : String) = "METADATA")

/-- C6 counterexample: with submissions failing twice transiently and
succeeding on the 3rd attempt, the final Execution row is `COMPLETED`
but records `retryCount = 0`, not `2`; and when every attempt fails, the
recorded error is the mint handler's wrapper message
`"Mint execution failed"`, not the last attempt's message
`"rpc timeout on attempt 3"`. -/
theorem C6_cex_retry_bookkeeping :
    (executorHandler attemptFlaky [] "ev1" "MINT" (some sampleEvent)).success = true ∧
    lookupItem (executorHandler attemptFlaky [] "ev1" "MINT" (some sampleEvent)).tbl
        (execKey "ev1") =
      some (.exec ⟨"ev1", "COMPLETED", some "0xfeed", 0, none⟩) ∧
    (0 : Nat) ≠ 2 ∧
    attemptAlwaysFail 3 = .error "rpc timeout on attempt 3" ∧
    lookupItem
        (executorHandler attemptAlwaysFail [] "ev1" "MINT" (some sampleEvent)).tbl
        (execKey "ev1") =
      some (.exec ⟨"ev1", "FAILED", none, 0, some "Mint execution failed"⟩) ∧
    "Mint execution failed" ≠ "rpc timeout on attempt 3" :=
  ⟨by decide, by decide, by decide, rfl, by decide, by decide⟩

/-- C6 (amended): with valid mint parameters, a submission oracle that
fails attempts 1 and 2 and succeeds on attempt 3 (within the budget
K = 3) yields a successful execution with exactly 3 submission attempts
and a final Execution row `COMPLETED` carrying the transaction hash —
but with `retryCount = 0` recorded (the executor writes a constant 0;
the attempt count is not propagated); an oracle failing every attempt
exhausts the budget after exactly 3 attempts (a 4th never happens) and
leaves the row `FAILED` with the handler's wrapper message
`"Mint execution failed"` recorded rather than the last attempt's own
message. -/
theorem C6_retry_outcomes (attempt attemptF : Nat → Except String String)
    (m₁ m₂ txh : String) (f : Nat → String) (tbl tbl' : Table) (e : EventRec)
    (hta : e.toAddress ≠ "") (ham : e.amount ≠ "") (ham0 : e.amount ≠ "0")
    (hid : e.eventId ≠ "")
    (h1 : attempt 1 = .error m₁) (h2 : attempt 2 = .error m₂)
    (h3 : attempt 3 = .ok txh)
    (hF : ∀ i, attemptF i = .error (f i)) :
    ((executorHandler attempt tbl e.eventId "MINT" (some e)).success = true ∧
     (executorHandler attempt tbl e.eventId "MINT" (some e)).submissions = 3 ∧
     lookupItem (executorHandler attempt tbl e.eventId "MINT" (some e)).tbl
       (execKey e.eventId) =
       some (.exec ⟨e.eventId, "COMPLETED", some txh, 0, none⟩)) ∧
    ((executorHandler attemptF tbl' e.eventId "MINT" (some e)).success = false ∧
     (executorHandler attemptF tbl' e.eventId "MINT" (some e)).submissions = 3 ∧
     lookupItem (executorHandler attemptF tbl' e.eventId "MINT" (some e)).tbl
       (execKey e.eventId) =
       some (.exec ⟨e.eventId, "FAILED", none, 0, some "Mint execution failed"⟩)) := by
  have hp : validateMintParams e = .ok () := by
    simp [validateMintParams, hta, ham, ham0, hid]
  have hsend : sendTransaction attempt 3 = .ok txh := by
    show sendTransactionFrom attempt 1 3 = .ok txh
    rw [show (3 : Nat) = 2 + 1 from rfl, sendTransactionFrom_succ, h1]
    show sendTransactionFrom attempt 2 2 = .ok txh
    rw [show (2 : Nat) = 1 + 1 from rfl, sendTransactionFrom_succ, h2]
    show sendTransactionFrom attempt 3 1 = .ok txh
    rw [show (1 : Nat) = 0 + 1 from rfl, sendTransactionFrom_succ, h3]
  have hsendF : sendTransaction attemptF 3 =
      .error "Transaction failed after retries" := by
    show sendTransactionFrom attemptF 1 3 = _
    rw [show (3 : Nat) = 2 + 1 from rfl, sendTransactionFrom_succ, hF 1]
    show sendTransactionFrom attemptF 2 2 = _
    rw [show (2 : Nat) = 1 + 1 from rfl, sendTransactionFrom_succ, hF 2]
    show sendTransactionFrom attemptF 3 1 = _
    rw [show (1 : Nat) = 0 + 1 from rfl, sendTransactionFrom_succ, hF 3]
    rfl
  have hused : attemptsUsed attempt 3 = 3 := by
    show attemptsUsedFrom attempt 1 3 = 3
    rw [show (3 : Nat) = 2 + 1 from rfl, attemptsUsedFrom_succ, h1]
    show 1 + attemptsUsedFrom attempt 2 2 = 3
    rw [show (2 : Nat) = 1 + 1 from rfl, attemptsUsedFrom_succ, h2]
    show 1 + (1 + attemptsUsedFrom attempt 3 1) = 3
    rw [show (1 : Nat) = 0 + 1 from rfl, attemptsUsedFrom_succ, h3]
    rfl
  have husedF : attemptsUsed attemptF 3 = 3 := by
    show attemptsUsedFrom attemptF 1 3 = 3
    rw [show (3 : Nat) = 2 + 1 from rfl, attemptsUsedFrom_succ, hF 1]
    show 1 + attemptsUsedFrom attemptF 2 2 = 3
    rw [show (2 : Nat) = 1 + 1 from rfl, attemptsUsedFrom_succ, hF 2]
    show 1 + (1 + attemptsUsedFrom attemptF 3 1) = 3
    rw [show (1 : Nat) = 0 + 1 from rfl, attemptsUsedFrom_succ, hF 3]
    rfl
  have hexecA : executeAction attempt "MINT" e = (.ok txh, 3) := by
    simp [executeAction, hp, executeMint, hsend, attemptsUsed] at hused ⊢
    simp [hused]
  have hexecF : executeAction attemptF "MINT" e =
      (.error "Mint execution failed", 3) := by
    simp [executeAction, hp, executeMint, hsendF, attemptsUsed] at husedF ⊢
    simp [husedF]
  have hma : ¬(("MINT" : String) = "") := by decide
  refine ⟨?_, ?_⟩
  · refine ⟨?_, ?_, ?_⟩ <;>
      simp [executorHandler, hid, hma, hexecA, upsertExecution,
        lookupItem_updateEventStatus_execKey, lookupItem_putItem_self]
  · refine ⟨?_, ?_, ?_⟩ <;>
      simp [executorHandler, hid, hma, hexecF, upsertExecution,
        lookupItem_putItem_self]

/-- C6 witness: the amended statement at `sampleEvent` with the concrete
flaky and always-failing oracles. -/
theorem C6_retry_outcomes_witness :
    ((executorHandler attemptFlaky [] sampleEvent.eventId "MINT"
        (some sampleEvent)).success = true ∧
     (executorHandler attemptFlaky [] sampleEvent.eventId "MINT"
        (some sampleEvent)).submissions = 3 ∧
     lookupItem (executorHandler attemptFlaky [] sampleEvent.eventId "MINT"
        (some sampleEvent)).tbl (execKey sampleEvent.eventId) =
       some (.exec ⟨sampleEvent.eventId, "COMPLETED", some "0xfeed", 0, none⟩)) ∧
    ((executorHandler attemptAlwaysFail [] sampleEvent.eventId "MINT"
        (some sampleEvent)).success = false ∧
     (executorHandler attemptAlwaysFail [] sampleEvent.eventId "MINT"
        (some sampleEvent)).submissions = 3 ∧
     lookupItem (executorHandler attemptAlwaysFail [] sampleEvent.eventId "MINT"
        (some sampleEvent)).tbl (execKey sampleEvent.eventId) =
       some (.exec ⟨sampleEvent.eventId, "FAILED", none, 0,
         some "Mint execution failed"⟩)) :=
  C6_retry_outcomes attemptFlaky attemptAlwaysFail
    "transient failure 1" "transient failure 2" "0xfeed"
    (fun i => "rpc timeout on attempt " ++ toString i) [] [] sampleEvent
    (by decide) (by decide) (by decide) (by decide)
    rfl rfl rfl (fun _ => rfl)
